import Mathlib

/-!
Shallow embedding of the computational core of the LPdispurse repository
(src/core/stellar.py, src/services/trade_services.py,
src/services/copy_trading.py, src/rewards_disbursement_bot/payouts.py).

Python float arithmetic is modelled as exact rational arithmetic over the
rationals; the Python call round(x, 7) is modelled as rounding half-up to
seven decimal places.  Network effects (horizon queries, signing, submission,
confirmation polls) are modelled as explicit inputs to the control-flow
functions, so that every exception path of the source is an explicit
Except branch.
-/

namespace LPD

/-- Rounding to the nearest integer, halves up: models the integer core of
the Python builtin round. -/
def rnd (x : ℚ) : ℤ := ⌊x + 1 / 2⌋

/-- Model of the Python call round(x, 7): round to seven decimal places. -/
def round7 (x : ℚ) : ℚ := (rnd (x * 10000000) : ℚ) / 10000000

/-- One stroop, the smallest representable amount, 0.0000001 in the source. -/
def minUnit : ℚ := 1 / 10000000

/-- Membership test for the Python expression pat in s, on character lists. -/
def containsSub (pat : List Char) : List Char → Bool
  | [] => pat.isEmpty
  | c :: t => pat.isPrefixOf (c :: t) || containsSub pat t

/-- Model of the Python expression pat in s on strings (case sensitive). -/
def strContains (s pat : String) : Bool := containsSub pat.toList s.toList

/-- Model of the Python expression pat in s.lower(). -/
def strContainsLower (s pat : String) : Bool :=
  containsSub pat.toList (s.toList.map Char.toLower)

/-! ### trade_services.py lines 143-146 and 300-303: slippage bounds

perform_buy line 146: send_max = max(round(min_source_amount * (1 + slippage), 7), 0.0000001).
perform_sell line 303: dest_min = max(round(max_dest_amount * (1 - slippage), 7), 0.0000001).
-/

/-- Embeds trade_services.py line 146: the strict-receive send maximum for a
route requiring source amount R under slippage s. -/
def send_max_val (R s : ℚ) : ℚ := max (round7 (R * (1 + s))) minUnit

/-- Embeds trade_services.py line 303: the strict-send destination minimum for
a route expecting destination amount E under slippage s. -/
def dest_min_val (E s : ℚ) : ℚ := max (round7 (E * (1 - s))) minUnit

/-! ### trade_services.py lines 18-26: available native balance -/

/-- Fields of a horizon account record consumed by calculate_available_xlm:
native balance, native selling liabilities, subentry_count, num_sponsoring,
num_sponsored. -/
structure AccountRec where
  xlm_balance : ℚ
  selling_liabilities : ℚ
  subentry_count : ℕ
  num_sponsoring : ℕ
  num_sponsored : ℕ
deriving DecidableEq

/-- Embeds trade_services.py line 24: minimum_reserve =
2 + (subentry_count + num_sponsoring - num_sponsored) * 0.5 in int arithmetic
cast to a rational. -/
def minimum_reserve (a : AccountRec) : ℚ :=
  2 + ((a.subentry_count : ℚ) + (a.num_sponsoring : ℚ) - (a.num_sponsored : ℚ)) * (1 / 2)

/-- Embeds trade_services.py lines 18-26: available native balance, clamped
to zero by the final max(available_xlm, 0). -/
def calculate_available_xlm (a : AccountRec) : ℚ :=
  max (a.xlm_balance - a.selling_liabilities - minimum_reserve a) 0

/-! ### core/stellar.py lines 53-68: recommended fee -/

/-- Embeds core/stellar.py lines 60-65: sort the max fees of the latest
ledger ascending, return the middle element, averaging the two middle
elements with Python integer floor division on even counts; 10000 when the
ledger had no transactions. -/
def median_fee (fees : List ℕ) : ℕ :=
  if fees.isEmpty then 10000
  else
    let sorted := List.insertionSort (· ≤ ·) fees
    let mid := fees.length / 2
    if fees.length % 2 == 0 then (sorted.getD mid 0 + sorted.getD (mid - 1) 0) / 2
    else sorted.getD mid 0

/-- Embeds core/stellar.py lines 53-68: the fee query either fails (none,
the except branch returning 10000) or yields the list of max fees of the
most recently closed ledger. -/
def get_recommended_fee : Option (List ℕ) → ℕ
  | none => 10000
  | some fees => median_fee fees

/-! ### core/stellar.py lines 70-93: envelope assembly -/

/-- Unsigned envelope fields fixed by build_and_submit_transaction before
signing: sequence, base fee, time bounds, memo, operation count. -/
structure EnvelopeRec where
  seq : ℕ
  base_fee : ℕ
  min_time : ℕ
  max_time : ℕ
  memo : Option String
  op_count : ℕ
deriving DecidableEq

/-- Embeds core/stellar.py lines 74-93: the freshly loaded sequence number,
the base fee defaulting to max(recommended, 200 * op count) when the caller
passes none (lines 77-79), and the time bounds (0, now + 900) from
add_time_bounds at line 86. -/
def build_unsigned_envelope (loaded_seq now op_count : ℕ) (memo : Option String)
    (base_fee : Option ℕ) (feeQuery : Option (List ℕ)) : EnvelopeRec :=
  let bf := match base_fee with
    | some b => b
    | none => max (get_recommended_fee feeQuery) (200 * op_count)
  { seq := loaded_seq, base_fee := bf, min_time := 0, max_time := now + 900,
    memo := memo, op_count := op_count }

/-! ### trade_services.py lines 395-411: service fee and affordability -/

/-- Embeds trade_services.py lines 395-411.  The account checked is the one
loaded for telegram_id when a user id is supplied and for fee_wallet
otherwise (line 396); accounts maps an address to its snapshot.  The fee is
one percent of the native send amount, or of the estimated native value of a
non-native asset (lines 399-403); is_send_max adds the spend itself to the
required total (line 406). -/
def calculate_fee_and_check_balance (accounts : String → AccountRec)
    (fee_wallet : String) (telegram_id : Option String)
    (send_asset_native : Bool) (send_amount estimated_xlm : ℚ)
    (is_send_max : Bool) : Except String ℚ :=
  let public_key := telegram_id.getD fee_wallet
  let account := accounts public_key
  let fee := if send_asset_native then round7 ((1/100) * send_amount)
             else round7 ((1/100) * estimated_xlm)
  let available_xlm := calculate_available_xlm account
  let total_required := if send_asset_native && is_send_max then send_amount + fee else fee
  if available_xlm < total_required then .error ("Insufficient XLM")
  else .ok fee

/-- Embeds copy_trading.py lines 114 and 161: both replication branches call
calculate_fee_and_check_balance with no user id (telegram_id None) and
is_send_max left at its default False. -/
def copy_trading_fee_check (accounts : String → AccountRec) (fee_wallet : String)
    (send_asset_native : Bool) (send_amount estimated_xlm : ℚ) : Except String ℚ :=
  calculate_fee_and_check_balance accounts fee_wallet none
    send_asset_native send_amount estimated_xlm false

/-! ### core/stellar.py lines 119-139: confirmation polling -/

/-- Outcome of one getTransaction poll: the transaction was found with its
successful flag, or the call raised with some message (horizon not-found
errors carry the text not_found). -/
inductive PollResult where
  | found (successful : Bool)
  | httpErr (msg : String)
deriving DecidableEq

/-- Errors of wait_for_transaction_confirmation, one constructor per distinct
Python exception type raised at lines 131, 138 and 139. -/
inductive WaitErr where
  | txFailed (msg : String)
  | transport (msg : String)
  | timeout (msg : String)
deriving DecidableEq

/-- Classifies a poll outcome as a not-yet-visible retry: an exception whose
lowered text contains not_found (core/stellar.py line 133). -/
def retryablePoll : PollResult → Bool
  | .found _ => false
  | .httpErr m => strContainsLower m "not_found"

/-- Embeds the while loop of core/stellar.py lines 122-139.  k is the index
of the next poll, the second argument the remaining attempt budget
(max_attempts - attempts).  A found successful transaction returns; a found
unsuccessful one raises ValueError inside the try, whose message is then
classified by the except arm exactly as the source does; any other error is
classified by the same not_found test; an exhausted budget raises
TimeoutError. -/
def waitGo (tx_hash : String) (polls : ℕ → PollResult) : ℕ → ℕ → Except WaitErr ℕ
  | _, 0 => .error (.timeout ("Transaction " ++ tx_hash ++ " not confirmed"))
  | k, n + 1 =>
    match polls k with
    | .found true => .ok k
    | .found false =>
      let msg := "Transaction " ++ tx_hash ++ " failed"
      if strContainsLower msg "not_found" then waitGo tx_hash polls (k + 1) n
      else .error (.txFailed msg)
    | .httpErr m =>
      if strContainsLower m "not_found" then waitGo tx_hash polls (k + 1) n
      else .error (.transport m)

/-- Embeds core/stellar.py lines 119-139: wait_for_transaction_confirmation
with its polling budget; the poll at index i is the result of the i-th
getTransaction call. -/
def wait_for_transaction_confirmation (tx_hash : String) (polls : ℕ → PollResult)
    (max_attempts : ℕ) : Except WaitErr ℕ :=
  waitGo tx_hash polls 0 max_attempts

/-! ### trade_services.py lines 94-138 and 247-295: route selection -/

/-- Ledger asset: the native unit or a (code, issuer) pair. -/
inductive SAsset where
  | native
  | alpha (code issuer : String)
deriving DecidableEq

/-- One order book level with its price and amount. -/
structure BookLevel where
  price : ℚ
  amount : ℚ
deriving DecidableEq

/-- The two sides of an order book returned by the orderbook endpoint. -/
structure OrderBook where
  asks : List BookLevel
  bids : List BookLevel
deriving DecidableEq

/-- One horizon path record: required source amount, expected destination
amount, and the intermediate hop assets. -/
structure PathRec where
  source_amount : ℚ
  destination_amount : ℚ
  hops : List SAsset
deriving DecidableEq

/-- Consecutive pairs of a list, the (selling, buying) hops walked by the
range loop over path_assets at trade_services.py lines 108-110 and 261-263. -/
def hopPairs : List SAsset → List (SAsset × SAsset)
  | a :: b :: rest => (a, b) :: hopPairs (b :: rest)
  | _ => []

/-- Embeds trade_services.py lines 117-131: one buy hop passes when the book
has asks and the summed ask amounts are not below the required destination
amount. -/
def hop_ok_buy (books : SAsset → SAsset → OrderBook) (dest_amount : ℚ)
    (selling buying : SAsset) : Bool :=
  let asks := (books selling buying).asks
  !asks.isEmpty &&
    !decide (asks.foldl (fun acc a => acc + a.amount) 0 < dest_amount)

/-- Embeds trade_services.py lines 106-131: direct candidates (empty hop
list) skip the order book walk (line 107); otherwise every hop must pass. -/
def liquidity_ok_buy (books : SAsset → SAsset → OrderBook) (dest_amount : ℚ)
    (target : SAsset) (p : PathRec) : Bool :=
  if p.hops.isEmpty then true
  else (hopPairs (SAsset.native :: (p.hops ++ [target]))).all
    (fun pr => hop_ok_buy books dest_amount pr.1 pr.2)

/-- Embeds trade_services.py lines 270-288: one sell hop passes when the book
has bids and the bid amounts, converted to source equivalents by dividing by
the bid price (zero-price bids skipped), sum to at least the send amount. -/
def hop_ok_sell (books : SAsset → SAsset → OrderBook) (send_amount : ℚ)
    (selling buying : SAsset) : Bool :=
  let bids := (books selling buying).bids
  !bids.isEmpty &&
    !decide ((bids.foldl
      (fun acc b => if b.price = 0 then acc else acc + b.amount / b.price) 0)
      < send_amount)

/-- Embeds trade_services.py lines 258-288: direct candidates skip the walk
(line 260); otherwise every hop of source :: hops ++ [native] must pass. -/
def liquidity_ok_sell (books : SAsset → SAsset → OrderBook) (send_amount : ℚ)
    (source : SAsset) (p : PathRec) : Bool :=
  if p.hops.isEmpty then true
  else (hopPairs (source :: (p.hops ++ [SAsset.native]))).all
    (fun pr => hop_ok_sell books send_amount pr.1 pr.2)

/-- Buy ranking key of trade_services.py line 98: (source_amount, hop count)
ascending, lexicographically. -/
def buyLe (p q : PathRec) : Prop :=
  toLex (p.source_amount, p.hops.length) ≤ toLex (q.source_amount, q.hops.length)

/-- Sell ranking key of trade_services.py line 251: (-destination_amount,
hop count) ascending, lexicographically. -/
def sellLe (p q : PathRec) : Prop :=
  toLex (-p.destination_amount, p.hops.length) ≤ toLex (-q.destination_amount, q.hops.length)

instance : DecidableRel buyLe := fun _ _ =>
  inferInstanceAs (Decidable (_ ≤ _))

instance : DecidableRel sellLe := fun _ _ =>
  inferInstanceAs (Decidable (_ ≤ _))

instance : IsTotal PathRec buyLe := ⟨fun _ _ => le_total _ _⟩

instance : IsTotal PathRec sellLe := ⟨fun _ _ => le_total _ _⟩

instance : IsTrans PathRec buyLe := ⟨fun _ _ _ h h2 => le_trans h h2⟩

instance : IsTrans PathRec sellLe := ⟨fun _ _ _ h h2 => le_trans h h2⟩

/-- Embeds the for loops at trade_services.py lines 101-135 and 254-292:
walk the sorted candidates and keep the first that passes. -/
def pickFirst (ok : PathRec → Bool) : List PathRec → Option PathRec
  | [] => none
  | p :: rest => if ok p then some p else pickFirst ok rest

/-- Wraps the selection outcome the way lines 137-138 and 294-295 do: no
surviving candidate raises the no-viable-path ValueError. -/
def routeResult (o : Option PathRec) : Except String PathRec :=
  match o with
  | some p => .ok p
  | none => .error ("No viable path found - insufficient liquidity in all paths")

/-- Embeds trade_services.py lines 94-138: empty candidate list raises at
line 96; otherwise candidates are sorted by (source_amount, hop count)
ascending and the first passing one is kept. -/
def perform_buy_route (books : SAsset → SAsset → OrderBook) (dest_amount : ℚ)
    (target : SAsset) (paths : List PathRec) : Except String PathRec :=
  if paths.isEmpty then .error ("No paths found - insufficient liquidity")
  else routeResult (pickFirst (liquidity_ok_buy books dest_amount target)
    (List.insertionSort buyLe paths))

/-- Embeds trade_services.py lines 247-295: empty candidate list raises at
line 249; otherwise candidates are sorted by (-destination_amount, hop
count) ascending and the first passing one is kept. -/
def perform_sell_route (books : SAsset → SAsset → OrderBook) (send_amount : ℚ)
    (source : SAsset) (paths : List PathRec) : Except String PathRec :=
  if paths.isEmpty then .error ("No paths found - insufficient liquidity")
  else routeResult (pickFirst (liquidity_ok_sell books send_amount source)
    (List.insertionSort sellLe paths))

/-! ### trade_services.py lines 140-209: buy submission with fallback -/

/-- One submitted path payment attempt: its kind tag together with the send
bound and the destination bound it carried. -/
structure Attempt where
  kind : String
  sendVal : ℚ
  destVal : ℚ
deriving DecidableEq

/-- Classifier of trade_services.py line 178: the fallback triggers exactly
when the failure text mentions op_too_few_offers or over_sendmax. -/
def classified_buy_failure (e : String) : Bool :=
  strContains e "op_too_few_offers" || strContains e "over_sendmax"

/-- Embeds trade_services.py lines 140-209 after route selection.  The
injected results stand for the network effects: attempt1 for the
strict-receive submit-and-confirm (lines 169-175), feeCheck2 for the
fee recheck of the fallback (line 182), attempt2 for the strict-send
submit-and-confirm (lines 199-205).  The returned list records the path
payments actually submitted, in order. -/
def perform_buy_exec (min_source_amount dest_amount slippage available_xlm fee : ℚ)
    (attempt1 : Except String Unit) (feeCheck2 : Except String ℚ)
    (attempt2 : Except String Unit) : List Attempt × Except String Unit :=
  let send_max := send_max_val min_source_amount slippage
  if send_max + fee > available_xlm then ([], .error ("Insufficient XLM"))
  else
    let a1 : Attempt := ⟨"PPSR", send_max, round7 dest_amount⟩
    match attempt1 with
    | .ok _ => ([a1], .ok ())
    | .error e =>
      if classified_buy_failure e then
        match feeCheck2 with
        | .error e2 => ([a1], .error e2)
        | .ok _ =>
          let send_amount := send_max
          let expected_asset := send_amount / (min_source_amount / dest_amount)
          let dest_min := max (round7 (expected_asset * (1 - slippage))) minUnit
          let a2 : Attempt := ⟨"PPSS", send_amount, dest_min⟩
          match attempt2 with
          | .ok _ => ([a1, a2], .ok ())
          | .error _ => ([a1, a2], .error ("Buy failed (PPSR and PPSS)"))
      else ([a1], .error e)

/-! ### trade_services.py lines 297-332: sell submission, no fallback -/

/-- Embeds trade_services.py lines 297-332 after route selection: one
strict-send attempt; any failure of submit or confirmation is wrapped into
the sell-failed ValueError at line 332 and propagated, never retried. -/
def perform_sell_exec (max_dest_amount slippage send_amount : ℚ)
    (attempt : Except String Unit) : List Attempt × Except String Unit :=
  let dest_min := dest_min_val max_dest_amount slippage
  let a : Attempt := ⟨"PPSS", round7 send_amount, dest_min⟩
  match attempt with
  | .ok _ => ([a], .ok ())
  | .error _ => ([a], .error ("Sell failed (PPSS)"))

/-! ### copy_trading.py lines 82-186: replicated amounts -/

/-- Per (follower, counterpart) configuration row read at copy_trading.py
lines 58-68: multiplier, optional fixed amount override, slippage. -/
structure CopyCfg where
  multiplier : ℚ
  fixed_amount : Option ℚ
  slippage : ℚ
deriving DecidableEq

/-- Embeds the strict-send branch, copy_trading.py lines 94-112: effective
send amount (fixed amount if set, else counterpart amount times multiplier,
line 94) rounded at line 95; the scaled bound of lines 96-98; balance
capping at lines 101-108; the returned pair is (send_amount_final,
dest_min_final). -/
def copy_strict_send_amounts (cfg : CopyCfg)
    (original_send_amount original_dest_min balance : ℚ) :
    Except String (ℚ × ℚ) :=
  let send_amount := cfg.fixed_amount.getD (original_send_amount * cfg.multiplier)
  let send_amount_final := round7 send_amount
  let scaled_dest_min := max (original_dest_min * cfg.multiplier) minUnit
  if balance < send_amount_final then
    let saf := round7 balance
    if saf ≤ 0 then .error ("No funds available to trade")
    else
      let base := scaled_dest_min * (saf / original_send_amount)
      .ok (saf, max (round7 (base * (1 - cfg.slippage))) (round7 (base * (3/4))))
  else
    let base := scaled_dest_min * (send_amount_final / original_send_amount)
    .ok (send_amount_final,
      max (round7 (base * (1 - cfg.slippage))) (round7 (base * (3/4))))

/-- Embeds the strict-receive branch, copy_trading.py lines 149-159:
effective destination amount (line 149) rounded at line 150; the send
maximum of line 151; balance capping at lines 154-159; the returned pair is
(send_max_final, dest_amount_final). -/
def copy_strict_receive_amounts (cfg : CopyCfg)
    (original_send_max original_dest_amount balance : ℚ) :
    Except String (ℚ × ℚ) :=
  let dest_amount := cfg.fixed_amount.getD (original_dest_amount * cfg.multiplier)
  let dest_amount_final := round7 dest_amount
  let send_max_final :=
    round7 (original_send_max * (dest_amount_final / original_dest_amount) * (1 + cfg.slippage))
  if balance < send_max_final then
    let smf := round7 balance
    if smf ≤ 0 then .error ("No funds available to trade")
    else .ok (smf, round7 (dest_amount * (smf / original_send_max)))
  else .ok (send_max_final, dest_amount_final)

/-! ### copy_trading.py lines 188-247: the submit phase catch-all -/

/-- Embeds the try/except of copy_trading.py lines 188-247: the body (submit,
confirm, volume logging, effects read) either yields a realized received
amount or raises; every exception is caught at line 241, a chat notification
is sent, and the loop continues - nothing is re-raised.  The result is a
normal return (ok) in every case: realized amount when completed,
notification text when caught; an error value would model an uncaught
exception and is never produced. -/
def copy_submit_phase (body : Except String ℚ) :
    Except String (Option ℚ × Option String) :=
  match body with
  | .ok received => .ok (some received, none)
  | .error e => .ok (none, some ("Error copying trade: " ++ e))

/-! ### rewards_disbursement_bot/payouts.py lines 115-119: confirm catch -/

/-- Embeds the inner try of payouts.py lines 115-119: in confirm mode a
failing confirmation is caught, logged as a warning, and the chunk loop
continues; the Boolean records whether confirmation succeeded. -/
def payout_confirm_step (confirm_mode : Bool) (confirmRes : Except String Unit) :
    Except String Bool :=
  if confirm_mode then
    match confirmRes with
    | .ok _ => .ok true
    | .error _ => .ok false
  else .ok false

/-! ## Helper lemmas -/

theorem rnd_mono {x y : ℚ} (h : x ≤ y) : rnd x ≤ rnd y :=
  Int.floor_le_floor (by linarith)

theorem round7_mono {x y : ℚ} (h : x ≤ y) : round7 x ≤ round7 y := by
  unfold round7
  have h1 : rnd (x * 10000000) ≤ rnd (y * 10000000) :=
    rnd_mono (by nlinarith)
  have h2 : ((rnd (x * 10000000) : ℚ)) ≤ (rnd (y * 10000000) : ℚ) := by
    exact_mod_cast h1
  linarith

theorem pickFirst_eq_find (ok : PathRec → Bool) (l : List PathRec) :
    pickFirst ok l = l.find? ok := by
  induction l with
  | nil => rfl
  | cons p rest ih =>
    by_cases h : ok p = true
    · simp [pickFirst, List.find?, h]
    · simp only [Bool.not_eq_true] at h
      simp [pickFirst, List.find?, h, ih]

theorem waitGo_skip (tx_hash : String) (polls : ℕ → PollResult) :
    ∀ (j k n : ℕ), j ≤ n → (∀ i, i < j → retryablePoll (polls (k + i)) = true) →
    waitGo tx_hash polls k n = waitGo tx_hash polls (k + j) (n - j) := by
  intro j
  induction j with
  | zero => intro k n _ _; simp
  | succ j ih =>
    intro k n hj hret
    obtain ⟨m, rfl⟩ : ∃ m, n = m + 1 := ⟨n - 1, by omega⟩
    have h0 : retryablePoll (polls k) = true := by
      have := hret 0 (by omega)
      simpa using this
    cases hp : polls k with
    | found b => rw [hp] at h0; simp [retryablePoll] at h0
    | httpErr msg =>
      rw [hp] at h0
      simp only [retryablePoll] at h0
      have step : waitGo tx_hash polls k (m + 1) = waitGo tx_hash polls (k + 1) m := by
        simp [waitGo, hp, h0]
      rw [step]
      have ih2 := ih (k + 1) m (by omega) (by
        intro i hi
        have := hret (i + 1) (by omega)
        simpa [Nat.add_comm, Nat.add_assoc, Nat.add_left_comm] using this)
      rw [ih2]
      congr 1
      · omega
      · omega

/-! ## Claim theorems -/

/-- C8: increasing slippage never decreases send_max and never increases
dest_min, through the 7-decimal rounding and the one-stroop floor. -/
theorem sendMax_destMin_monotone_in_slippage
    (R E s1 s2 : ℚ) (hR : 0 ≤ R) (hE : 0 ≤ E) (hs : s1 ≤ s2) :
    send_max_val R s1 ≤ send_max_val R s2 ∧
    dest_min_val E s2 ≤ dest_min_val E s1 := by
  constructor
  · have : R * (1 + s1) ≤ R * (1 + s2) := by nlinarith
    exact max_le_max (round7_mono this) le_rfl
  · have : E * (1 - s2) ≤ E * (1 - s1) := by nlinarith
    exact max_le_max (round7_mono this) le_rfl

/-- C8 witness: concrete instance of the slippage monotonicity theorem. -/
theorem sendMax_destMin_monotone_in_slippage_witness :
    send_max_val 100 (5/100) ≤ send_max_val 100 (1/10) ∧
    dest_min_val 50 (1/10) ≤ dest_min_val 50 (5/100) :=
  sendMax_destMin_monotone_in_slippage 100 50 (5/100) (1/10)
    (by norm_num) (by norm_num) (by norm_num)


/-- C6: for a valid snapshot (one whose raw difference is nonnegative) the
derived available native balance equals native balance minus selling
liabilities minus the minimum reserve; it is nonnegative for every snapshot;
and a buy whose send_max plus service fee exceeds it errors with no path
payment submitted. -/
theorem available_native_balance_spec (a : AccountRec)
    (hvalid : 0 ≤ a.xlm_balance - a.selling_liabilities - minimum_reserve a) :
    calculate_available_xlm a
      = a.xlm_balance - a.selling_liabilities - minimum_reserve a ∧
    (∀ b : AccountRec, 0 ≤ calculate_available_xlm b) ∧
    (∀ (ms da s fee : ℚ) (r1 : Except String Unit) (f2 : Except String ℚ)
       (r2 : Except String Unit),
      send_max_val ms s + fee > calculate_available_xlm a →
      perform_buy_exec ms da s (calculate_available_xlm a) fee r1 f2 r2
        = ([], Except.error ("Insufficient XLM"))) := by
  refine ⟨max_eq_left hvalid, fun b => le_max_right _ _, ?_⟩
  intro ms da s fee r1 f2 r2 hover
  unfold perform_buy_exec
  rw [if_pos hover]

/-- C6 witness: concrete snapshot with balance 10, liabilities 1, two
subentries and one sponsoring slot, so reserve 3.5 and available 5.5. -/
theorem available_native_balance_spec_witness :
    calculate_available_xlm ⟨10, 1, 2, 1, 0⟩ = 11/2 := by
  have h := (available_native_balance_spec ⟨10, 1, 2, 1, 0⟩ (by
    norm_num [minimum_reserve])).1
  rw [h]
  norm_num [minimum_reserve]

/-- C10: with no user id the affordability test of
calculate_fee_and_check_balance is evaluated against the fee wallet account:
the copy-trading call sites (telegram_id None) depend only on the fee wallet
entry of the account map, and fail exactly when the fee wallet available
balance is below the computed service fee. -/
theorem fee_check_without_user_uses_fee_wallet
    (accounts : String → AccountRec) (fee_wallet : String)
    (send_asset_native : Bool) (amt est : ℚ) :
    (∀ accounts2 : String → AccountRec,
       accounts2 fee_wallet = accounts fee_wallet →
       copy_trading_fee_check accounts2 fee_wallet send_asset_native amt est
         = copy_trading_fee_check accounts fee_wallet send_asset_native amt est) ∧
    (copy_trading_fee_check accounts fee_wallet send_asset_native amt est
        = Except.error ("Insufficient XLM") ↔
      calculate_available_xlm (accounts fee_wallet)
        < (if send_asset_native then round7 ((1/100) * amt)
           else round7 ((1/100) * est))) := by
  constructor
  · intro accounts2 heq
    unfold copy_trading_fee_check calculate_fee_and_check_balance
    simp only [Option.getD_none, heq]
  · unfold copy_trading_fee_check calculate_fee_and_check_balance
    simp only [Option.getD_none, Bool.and_false, if_false]
    by_cases h : calculate_available_xlm (accounts fee_wallet)
        < (if send_asset_native then round7 ((1/100) * amt)
           else round7 ((1/100) * est))
    · simp [h]
    · simp [h]

/-- C10 witness: the fee check with no user id gives the same outcome under
two account maps that agree on the fee wallet but give the follower a very
different balance. -/
theorem fee_check_without_user_uses_fee_wallet_witness :
    copy_trading_fee_check
        (fun k => if k = "FW" then ⟨3, 0, 0, 0, 0⟩ else ⟨1000, 0, 0, 0, 0⟩)
        "FW" true 50 0
      = copy_trading_fee_check (fun _ => ⟨3, 0, 0, 0, 0⟩) "FW" true 50 0 :=
  (fee_check_without_user_uses_fee_wallet
    (fun _ => (⟨3, 0, 0, 0, 0⟩ : AccountRec)) "FW" true 50 0).1
    (fun k => if k = "FW" then ⟨3, 0, 0, 0, 0⟩ else ⟨1000, 0, 0, 0, 0⟩)
    (by simp)

/-- C5 counterexample: for max fees 1 and 2 in the latest ledger the code
returns 1 by Python integer floor division, while the exact average of the
two middle values is 3/2. -/
theorem recommended_fee_not_exact_average :
    get_recommended_fee (some [1, 2]) = 1 ∧ ((1 : ℚ) + 2) / 2 ≠ (1 : ℚ) := by
  constructor
  · rfl
  · norm_num

/-- C5 amended: the recommended fee is the median of the sorted max fees,
with the two middle values averaged by integer floor division on even
counts; it is 10000 when the ledger had no transactions or the query failed;
and the default transaction base fee is max(recommended, 200 * op count). -/
theorem recommended_fee_spec (fees : List ℕ) (hne : fees ≠ []) :
    (∃ s : List ℕ, List.Perm s fees ∧ List.Sorted (· ≤ ·) s ∧
      get_recommended_fee (some fees)
        = if fees.length % 2 == 0 then
            (s.getD (fees.length / 2) 0 + s.getD (fees.length / 2 - 1) 0) / 2
          else s.getD (fees.length / 2) 0) ∧
    get_recommended_fee none = 10000 ∧
    get_recommended_fee (some []) = 10000 ∧
    (∀ (q : Option (List ℕ)) (loaded now op_count : ℕ) (memo : Option String),
      (build_unsigned_envelope loaded now op_count memo none q).base_fee
        = max (get_recommended_fee q) (200 * op_count)) ∧
    (∀ (q : Option (List ℕ)) (b loaded now op_count : ℕ) (memo : Option String),
      (build_unsigned_envelope loaded now op_count memo (some b) q).base_fee = b) := by
  refine ⟨⟨List.insertionSort (· ≤ ·) fees, List.perm_insertionSort _ _,
    List.sorted_insertionSort _ _, ?_⟩, rfl, rfl, fun _ _ _ _ _ => rfl,
    fun _ _ _ _ _ _ => rfl⟩
  have hempty : fees.isEmpty = false := by
    cases fees with
    | nil => exact absurd rfl hne
    | cons a l => rfl
  simp only [get_recommended_fee, median_fee, hempty, Bool.false_eq_true,
    if_false]

/-- C5 witness: concrete instances of the fallback clauses of the
recommended fee theorem. -/
theorem recommended_fee_spec_witness :
    get_recommended_fee none = 10000 ∧ get_recommended_fee (some []) = 10000 :=
  ⟨(recommended_fee_spec [3] (by simp)).2.1,
   (recommended_fee_spec [3] (by simp)).2.2.1⟩

/-- C7 counterexample: an envelope assembled at time 1000 carries lower time
bound 0, not the assembly time 1000. -/
theorem envelope_lower_bound_not_assembly_time :
    (build_unsigned_envelope 5 1000 1 none (some 100) none).min_time = 0 ∧
    (0 : ℕ) ≠ 1000 := by
  exact ⟨rfl, by norm_num⟩

/-- C7 amended: every unsigned envelope has lower time bound 0 (no lower
restriction) and upper time bound assembly time plus 900 seconds, carries
the freshly loaded sequence number, and the optional memo when given. -/
theorem envelope_window_spec (loaded_seq now op_count : ℕ) (memo : Option String)
    (base_fee : Option ℕ) (q : Option (List ℕ)) :
    (build_unsigned_envelope loaded_seq now op_count memo base_fee q).min_time = 0 ∧
    (build_unsigned_envelope loaded_seq now op_count memo base_fee q).max_time
      = now + 900 ∧
    (build_unsigned_envelope loaded_seq now op_count memo base_fee q).seq
      = loaded_seq ∧
    (build_unsigned_envelope loaded_seq now op_count memo base_fee q).memo = memo :=
  ⟨rfl, rfl, rfl, rfl⟩

/-- C3: the confirmation poller retries only not-yet-visible results: fewer
than 30 not-found polls followed by a found successful transaction return
success; 30 not-found polls raise the timeout error, never the
transaction-failed error; a found unsuccessful transaction fails immediately
with the transaction-failed error and is never retried; any other transport
error propagates immediately. -/
theorem wait_for_confirmation_spec (tx_hash : String) (polls : ℕ → PollResult)
    (hhash : strContainsLower ("Transaction " ++ tx_hash ++ " failed")
      "not_found" = false) :
    (∀ k, k < 30 → (∀ i, i < k → retryablePoll (polls i) = true) →
      polls k = .found true →
      wait_for_transaction_confirmation tx_hash polls 30 = .ok k) ∧
    ((∀ i, i < 30 → retryablePoll (polls i) = true) →
      wait_for_transaction_confirmation tx_hash polls 30
        = .error (.timeout ("Transaction " ++ tx_hash ++ " not confirmed")) ∧
      ∀ m, wait_for_transaction_confirmation tx_hash polls 30
        ≠ .error (.txFailed m)) ∧
    (∀ k, k < 30 → (∀ i, i < k → retryablePoll (polls i) = true) →
      polls k = .found false →
      wait_for_transaction_confirmation tx_hash polls 30
        = .error (.txFailed ("Transaction " ++ tx_hash ++ " failed"))) ∧
    (∀ k, k < 30 → (∀ i, i < k → retryablePoll (polls i) = true) →
      ∀ m, polls k = .httpErr m → strContainsLower m "not_found" = false →
      wait_for_transaction_confirmation tx_hash polls 30
        = .error (.transport m)) := by
  have skip : ∀ k, k ≤ 30 → (∀ i, i < k → retryablePoll (polls i) = true) →
      wait_for_transaction_confirmation tx_hash polls 30
        = waitGo tx_hash polls k (30 - k) := by
    intro k hk hret
    unfold wait_for_transaction_confirmation
    have h := waitGo_skip tx_hash polls k 0 30 hk (by
      intro i hi
      simpa using hret i hi)
    simpa using h
  refine ⟨?_, ?_, ?_, ?_⟩
  · intro k hk hret hp
    obtain ⟨m, hm⟩ : ∃ m, 30 - k = m + 1 := ⟨30 - k - 1, by omega⟩
    rw [skip k (by omega) hret, hm]
    simp [waitGo, hp]
  · intro hret
    have h := skip 30 (by omega) hret
    constructor
    · rw [h]
      rfl
    · intro m
      rw [h]
      simp [waitGo]
  · intro k hk hret hp
    obtain ⟨m, hm⟩ : ∃ m, 30 - k = m + 1 := ⟨30 - k - 1, by omega⟩
    rw [skip k (by omega) hret, hm]
    simp [waitGo, hp, hhash]
  · intro k hk hret m hp hm2
    obtain ⟨mm, hmm⟩ : ∃ mm, 30 - k = mm + 1 := ⟨30 - k - 1, by omega⟩
    rw [skip k (by omega) hret, hmm]
    simp [waitGo, hp, hm2]

/-- C3 witness: a hash seen as not found for 29 polls and successful on the
30th poll confirms successfully. -/
theorem wait_for_confirmation_spec_witness :
    wait_for_transaction_confirmation "ab"
      (fun i => if i < 29 then PollResult.httpErr ("404 not_found")
                else .found true) 30 = .ok 29 :=
  (wait_for_confirmation_spec "ab"
      (fun i => if i < 29 then PollResult.httpErr ("404 not_found")
                else .found true)
      (by decide)).1 29 (by decide) (by decide) (by decide)

/-- C2: route selection sorts buy candidates ascending by (required source,
hop count) and sell candidates by (descending expected destination, then hop
count), returns the first candidate of the sorted order whose every hop
passes the depth check, errors with no-liquidity when none passes, and
direct (zero-hop) candidates always pass. -/
theorem route_selection_spec (books : SAsset → SAsset → OrderBook)
    (dest_amount send_amount : ℚ) (target source : SAsset)
    (bpaths spaths : List PathRec) (hb : bpaths ≠ []) (hs : spaths ≠ []) :
    (∃ l, List.Perm l bpaths ∧ List.Sorted buyLe l ∧
      perform_buy_route books dest_amount target bpaths
        = routeResult (l.find? (liquidity_ok_buy books dest_amount target))) ∧
    ((∀ p ∈ bpaths, liquidity_ok_buy books dest_amount target p = false) →
      perform_buy_route books dest_amount target bpaths
        = .error ("No viable path found - insufficient liquidity in all paths")) ∧
    (∀ p : PathRec, p.hops = [] →
      liquidity_ok_buy books dest_amount target p = true) ∧
    (∃ l, List.Perm l spaths ∧ List.Sorted sellLe l ∧
      perform_sell_route books send_amount source spaths
        = routeResult (l.find? (liquidity_ok_sell books send_amount source))) ∧
    ((∀ p ∈ spaths, liquidity_ok_sell books send_amount source p = false) →
      perform_sell_route books send_amount source spaths
        = .error ("No viable path found - insufficient liquidity in all paths")) ∧
    (∀ p : PathRec, p.hops = [] →
      liquidity_ok_sell books send_amount source p = true) := by
  have hbe : bpaths.isEmpty = false := by
    cases bpaths with
    | nil => exact absurd rfl hb
    | cons a l => rfl
  have hse : spaths.isEmpty = false := by
    cases spaths with
    | nil => exact absurd rfl hs
    | cons a l => rfl
  have hbuy : perform_buy_route books dest_amount target bpaths
      = routeResult ((List.insertionSort buyLe bpaths).find?
          (liquidity_ok_buy books dest_amount target)) := by
    simp [perform_buy_route, hbe, pickFirst_eq_find]
  have hsell : perform_sell_route books send_amount source spaths
      = routeResult ((List.insertionSort sellLe spaths).find?
          (liquidity_ok_sell books send_amount source)) := by
    simp [perform_sell_route, hse, pickFirst_eq_find]
  refine ⟨⟨List.insertionSort buyLe bpaths, List.perm_insertionSort _ _,
      List.sorted_insertionSort _ _, hbuy⟩, ?_, ?_,
    ⟨List.insertionSort sellLe spaths, List.perm_insertionSort _ _,
      List.sorted_insertionSort _ _, hsell⟩, ?_, ?_⟩
  · intro hfail
    rw [hbuy]
    have hnone : (List.insertionSort buyLe bpaths).find?
        (liquidity_ok_buy books dest_amount target) = none := by
      rw [List.find?_eq_none]
      intro p hp
      have hmem : p ∈ bpaths := (List.perm_insertionSort buyLe bpaths).mem_iff.mp hp
      simp [hfail p hmem]
    rw [hnone]
    rfl
  · intro p h
    simp [liquidity_ok_buy, h]
  · intro hfail
    rw [hsell]
    have hnone : (List.insertionSort sellLe spaths).find?
        (liquidity_ok_sell books send_amount source) = none := by
      rw [List.find?_eq_none]
      intro p hp
      have hmem : p ∈ spaths := (List.perm_insertionSort sellLe spaths).mem_iff.mp hp
      simp [hfail p hmem]
    rw [hnone]
    rfl
  · intro p h
    simp [liquidity_ok_sell, h]

/-- C2 witness: a single direct candidate on each side is selected. -/
theorem route_selection_spec_witness :
    liquidity_ok_buy (fun _ _ => ⟨[⟨1, 10⟩], [⟨1, 10⟩]⟩) 3 SAsset.native
      ⟨5, 7, []⟩ = true :=
  (route_selection_spec (fun _ _ => ⟨[⟨1, 10⟩], [⟨1, 10⟩]⟩) 3 3
    SAsset.native SAsset.native [⟨5, 7, []⟩] [⟨5, 7, []⟩]
    (by simp) (by simp)).2.2.1 ⟨5, 7, []⟩ rfl

/-- C4: when the affordability gate passes, a successful strict-receive
attempt submits nothing further; a failure classified as too-few-offers or
over-sendmax triggers exactly one strict-send fallback whose send amount is
the original send_max and whose destination minimum is
send_max / (required_source / dest_amount) * (1 - slippage) rounded and
floored at one stroop; any other buy failure propagates with no second
attempt; and sell always submits exactly one attempt and propagates every
failure. -/
theorem buy_fallback_spec (ms da s avail fee : ℚ)
    (haff : send_max_val ms s + fee ≤ avail) :
    (∀ (f2 : Except String ℚ) (a2 : Except String Unit),
      perform_buy_exec ms da s avail fee (.ok ()) f2 a2
        = ([⟨"PPSR", send_max_val ms s, round7 da⟩], .ok ())) ∧
    (∀ (e : String) (f2 : Except String ℚ) (a2 : Except String Unit),
      classified_buy_failure e = false →
      perform_buy_exec ms da s avail fee (.error e) f2 a2
        = ([⟨"PPSR", send_max_val ms s, round7 da⟩], .error e)) ∧
    (∀ (e : String) (fee2 : ℚ), classified_buy_failure e = true →
      (perform_buy_exec ms da s avail fee (.error e) (.ok fee2) (.ok ())
        = ([⟨"PPSR", send_max_val ms s, round7 da⟩,
            ⟨"PPSS", send_max_val ms s,
             max (round7 ((send_max_val ms s / (ms / da)) * (1 - s))) minUnit⟩],
           .ok ())) ∧
      ∀ e2 : String,
        perform_buy_exec ms da s avail fee (.error e) (.ok fee2) (.error e2)
          = ([⟨"PPSR", send_max_val ms s, round7 da⟩,
              ⟨"PPSS", send_max_val ms s,
               max (round7 ((send_max_val ms s / (ms / da)) * (1 - s))) minUnit⟩],
             .error ("Buy failed (PPSR and PPSS)"))) ∧
    (∀ (mdest ssl samt : ℚ) (r : Except String Unit),
      (perform_sell_exec mdest ssl samt r).1
        = [⟨"PPSS", round7 samt, dest_min_val mdest ssl⟩]) ∧
    (∀ (mdest ssl samt : ℚ) (e : String),
      perform_sell_exec mdest ssl samt (.error e)
        = ([⟨"PPSS", round7 samt, dest_min_val mdest ssl⟩],
           .error ("Sell failed (PPSS)"))) := by
  have hnot : ¬ (send_max_val ms s + fee > avail) := not_lt.mpr haff
  refine ⟨?_, ?_, ?_, ?_, ?_⟩
  · intro f2 a2
    simp [perform_buy_exec, hnot]
  · intro e f2 a2 hcl
    simp [perform_buy_exec, hnot, hcl]
  · intro e fee2 hcl
    constructor
    · simp [perform_buy_exec, hnot, hcl]
    · intro e2
      simp [perform_buy_exec, hnot, hcl]
  · intro mdest ssl samt r
    cases r <;> rfl
  · intro mdest ssl samt e
    rfl

/-- C4 witness: an unclassified failure of the first attempt propagates
unchanged with a single submitted attempt. -/
theorem buy_fallback_spec_witness :
    perform_buy_exec 100 50 0 1000 1 (.error ("tx_bad_seq")) (.ok 0) (.ok ())
      = ([⟨"PPSR", send_max_val 100 0, round7 50⟩], .error ("tx_bad_seq")) :=
  (buy_fallback_spec 100 50 0 1000 1 (by
      norm_num [send_max_val, round7, rnd, minUnit])).2.1
    "tx_bad_seq" (.ok 0) (.ok ()) (by decide)

/-- C1: evaluation of both replication branches at the spec scenario
(counterpart amount 100, multiplier 0.5, slippage 0, counterpart bound 80,
follower balance 40).  The spend is capped to the balance 40, but the paired
bound comes out as 16 = 80 * 0.5 * (40 / 100): the code rescales by
capped / original counterpart amount, while the claimed rescale by
capped / m-scaled amount relative to the m-scaled target 40 gives
40 * (40 / 50) = 32. -/
theorem copy_capping_rescale_evaluation :
    copy_strict_send_amounts ⟨1/2, none, 0⟩ 100 80 40 = .ok (40, 16) ∧
    copy_strict_receive_amounts ⟨1/2, none, 0⟩ 100 80 40 = .ok (40, 16) ∧
    (80 * (1/2 : ℚ)) * (40 / (100 * (1/2))) = 32 ∧ (16 : ℚ) ≠ 32 := by
  refine ⟨?_, ?_, by norm_num, by norm_num⟩
  · norm_num [copy_strict_send_amounts, round7, rnd, minUnit]
  · norm_num [copy_strict_receive_amounts, round7, rnd, minUnit]

/-- C9 counterexample: a post-submission failure (a confirmation timeout
message) is caught by the copy-trade replication loop, which completes
normally with a chat notification instead of re-raising, and by the batched
payout confirmation step, which completes normally after logging. -/
theorem post_submission_failures_swallowed :
    copy_submit_phase (.error ("Transaction h1 not confirmed after 60 attempts"))
      = .ok (none,
          some ("Error copying trade: Transaction h1 not confirmed after 60 attempts")) ∧
    payout_confirm_step true (.error ("Transaction h2 not confirmed")) = .ok false :=
  ⟨rfl, rfl⟩

/-- C9 amended: buy propagates every unclassified post-submission failure
and sell wraps and propagates every failure, but copy-trade replication
catches every post-submission failure and continues after notifying the
chat, and batched payout submission in confirm mode logs a failed
confirmation and continues. -/
theorem error_propagation_amended :
    (∀ (ms da s avail fee : ℚ) (e : String) (f2 : Except String ℚ)
       (a2 : Except String Unit),
      send_max_val ms s + fee ≤ avail → classified_buy_failure e = false →
      (perform_buy_exec ms da s avail fee (.error e) f2 a2).2 = .error e) ∧
    (∀ (mdest ssl samt : ℚ) (e : String),
      (perform_sell_exec mdest ssl samt (.error e)).2
        = .error ("Sell failed (PPSS)")) ∧
    (∀ e : String, copy_submit_phase (.error e)
      = .ok (none, some ("Error copying trade: " ++ e))) ∧
    (∀ e : String, payout_confirm_step true (.error e) = .ok false) := by
  refine ⟨?_, ?_, fun e => rfl, fun e => rfl⟩
  · intro ms da s avail fee e f2 a2 haff hcl
    have hnot : ¬ (send_max_val ms s + fee > avail) := not_lt.mpr haff
    simp [perform_buy_exec, hnot, hcl]
  · intro mdest ssl samt e
    rfl

/-- C9 amended witness: a confirmation timeout failing the first buy attempt
propagates to the caller unchanged. -/
theorem error_propagation_amended_witness :
    (perform_buy_exec 100 50 0 1000 1
      (.error ("Transaction h3 not confirmed after 60 seconds")) (.ok 0)
      (.ok ())).2 = .error ("Transaction h3 not confirmed after 60 seconds") :=
  error_propagation_amended.1 100 50 0 1000 1
    "Transaction h3 not confirmed after 60 seconds" (.ok 0) (.ok ())
    (by norm_num [send_max_val, round7, rnd, minUnit]) (by decide)

end LPD
